import Mathlib

/-!
# Verification of the avilingo spaced-repetition and progression core

Shallow embedding of the SM-2 scheduling engine
(`backend/app/services/spaced_repetition.py`), the streak state machine
(`backend/app/models/progress.py`), the achievement evaluation loop and the
predicted-ICAO-level computation (`backend/app/services/progress_service.py`,
`backend/app/services/icao_scoring.py`).

Python floats are modelled as exact rationals (ℚ); Python ints as ℤ.
Python `round` is round-half-to-even (banker's rounding), modelled by
`pyRound`; Python `int()` truncates toward zero, modelled by `pyInt`;
Python `//` and `%` on nonnegative operands agree with Lean's Euclidean
`/` and `%` on ℤ.  Dates are day numbers (ℤ): subtracting two Python
`date` values yields a timedelta whose `.days` is exactly their day
difference.  Datetimes are whole seconds (ℤ) where only differences matter.
-/

namespace Avilingo

/-- Python `round(q)`: round half to even (banker's rounding). -/
def pyRound (q : ℚ) : ℤ :=
  if q - ⌊q⌋ < 1/2 then ⌊q⌋
  else if 1/2 < q - ⌊q⌋ then ⌊q⌋ + 1
  else if Even ⌊q⌋ then ⌊q⌋ else ⌊q⌋ + 1

/-- Python `round(q, n)`: round to `n` decimal digits, half to even. -/
def pyRoundTo (n : ℕ) (q : ℚ) : ℚ := (pyRound (q * 10 ^ n) : ℚ) / 10 ^ n

/-- Python `int(q)`: truncation toward zero. -/
def pyInt (q : ℚ) : ℤ := if 0 ≤ q then ⌊q⌋ else -⌊-q⌋

theorem pyRound_le (q : ℚ) : pyRound q ≤ ⌊q⌋ + 1 := by
  unfold pyRound
  split
  · exact le_of_lt (lt_add_one _)
  · split
    · exact le_refl _
    · split
      · exact le_of_lt (lt_add_one _)
      · exact le_refl _

theorem le_pyRound (q : ℚ) : ⌊q⌋ ≤ pyRound q := by
  unfold pyRound
  split
  · exact le_refl _
  · split
    · exact le_of_lt (lt_add_one _)
    · split
      · exact le_refl _
      · exact le_of_lt (lt_add_one _)

/-- If an integer bounds `q` above, it bounds `pyRound q` above. -/
theorem pyRound_le_of_le {q : ℚ} {n : ℤ} (h : q ≤ n) : pyRound q ≤ n := by
  rcases lt_or_eq_of_le (Int.floor_le_floor h) with hf | hf
  · calc pyRound q ≤ ⌊q⌋ + 1 := pyRound_le q
      _ ≤ n := by rw [Int.floor_intCast] at hf; omega
  · rw [Int.floor_intCast] at hf
    have hq : q = (n : ℚ) := le_antisymm h (by rw [← hf]; exact Int.floor_le q)
    subst hq
    unfold pyRound
    rw [Int.floor_intCast]
    simp

/-- If an integer bounds `q` below, it bounds `pyRound q` below. -/
theorem le_pyRound_of_le {q : ℚ} {n : ℤ} (h : (n : ℚ) ≤ q) : n ≤ pyRound q := by
  have : n ≤ ⌊q⌋ := Int.le_floor.mpr h
  exact le_trans this (le_pyRound q)

/-- `pyRoundTo` preserves integer lower bounds scaled by the digit count. -/
theorem le_pyRoundTo {n : ℕ} {q : ℚ} {a : ℤ} (h : (a : ℚ) / 10 ^ n ≤ q) :
    (a : ℚ) / 10 ^ n ≤ pyRoundTo n q := by
  unfold pyRoundTo
  have hp : (0 : ℚ) < 10 ^ n := by positivity
  rw [div_le_div_iff_of_pos_right hp]
  have ha : (a : ℚ) ≤ q * 10 ^ n := by
    rw [div_le_iff₀ hp] at h; exact h
  exact_mod_cast le_pyRound_of_le ha

/-- `pyRoundTo` preserves integer upper bounds scaled by the digit count. -/
theorem pyRoundTo_le {n : ℕ} {q : ℚ} {a : ℤ} (h : q ≤ (a : ℚ) / 10 ^ n) :
    pyRoundTo n q ≤ (a : ℚ) / 10 ^ n := by
  unfold pyRoundTo
  have hp : (0 : ℚ) < 10 ^ n := by positivity
  rw [div_le_div_iff_of_pos_right hp]
  have ha : q * 10 ^ n ≤ (a : ℚ) := by
    rw [le_div_iff₀ hp] at h; exact h
  exact_mod_cast pyRound_le_of_le ha

/-- Rounding to decimals preserves nonnegativity. -/
theorem pyRoundTo_nonneg (n : ℕ) (q : ℚ) (h : 0 ≤ q) : 0 ≤ pyRoundTo n q := by
  have h2 : ((0 : ℤ) : ℚ) / 10 ^ n ≤ q := by simpa using h
  have h3 := le_pyRoundTo h2
  simpa using h3

/-- Rounding to one decimal preserves the upper bound 100. -/
theorem pyRoundTo_one_le (q : ℚ) (h : q ≤ 100) : pyRoundTo 1 q ≤ 100 := by
  have h2 : q ≤ ((1000 : ℤ) : ℚ) / 10 ^ 1 := by norm_num; linarith
  have h3 := pyRoundTo_le h2
  norm_num at h3
  exact h3

/-! ## SM-2 algorithm (`spaced_repetition.py`) -/

/-- Result record of `calculate_sm2` (the `next_review_at` datetime field is
time-dependent and not part of any claim, so it is omitted). -/
structure SM2Result where
  ease_factor : ℚ
  interval_days : ℤ
  repetitions : ℤ
deriving DecidableEq, Repr

/-- `MIN_EASE_FACTOR = 1.3`. -/
def MIN_EASE_FACTOR : ℚ := 13/10

/-- `DEFAULT_EASE_FACTOR = 2.5`. -/
def DEFAULT_EASE_FACTOR : ℚ := 5/2

/-- Embedding of `calculate_sm2` from `spaced_repetition.py`. -/
def calculate_sm2 (quality : ℤ) (current_ease_factor : ℚ)
    (current_interval : ℤ) (current_repetitions : ℤ) : SM2Result :=
  let q : ℤ := max 0 (min 5 quality)
  let new_ease_factor : ℚ :=
    current_ease_factor +
      (1/10 - ((5 - q : ℤ) : ℚ) * (2/25 + ((5 - q : ℤ) : ℚ) * (1/50)))
  let new_ease_factor : ℚ := max MIN_EASE_FACTOR new_ease_factor
  let ri : ℤ × ℤ :=
    if q < 3 then
      (0, 1)
    else
      let new_repetitions := current_repetitions + 1
      (new_repetitions,
        if new_repetitions = 1 then 1
        else if new_repetitions = 2 then 6
        else pyRound ((current_interval : ℚ) * new_ease_factor))
  let new_interval : ℤ := min ri.2 365
  { ease_factor := pyRoundTo 2 new_ease_factor
    interval_days := new_interval
    repetitions := ri.1 }

/-- C1 counterexample: the claim asserts the returned `easeFactor` equals
`max(1.3, e + (0.1 − (5−q)·(0.08 + (5−q)·0.02)))` exactly, but the code
returns that value rounded to two decimals (`round(new_ease_factor, 2)`).
At `q = 5`, `e = 2.005`, the mathematical value is `2.105` while the code
returns `2.1`. -/
theorem calculate_sm2_ease_not_exact :
    (calculate_sm2 5 (401/200) 1 0).ease_factor ≠
      max (13/10) (401/200 +
        (1/10 - ((5 - 5 : ℤ) : ℚ) * (2/25 + ((5 - 5 : ℤ) : ℚ) * (1/50)))) := by
  unfold calculate_sm2 MIN_EASE_FACTOR pyRoundTo pyRound
  norm_num
  rw [if_pos (show Even (210 : ℤ) by decide)]
  norm_num

/-- C1 (amended): with quality first clamped to `[0,5]` yielding `q`, and
`ef = max(1.3, e + (0.1 − (5−q)·(0.08 + (5−q)·0.02)))`, `calculate_sm2`
returns `ease' = ef` rounded to two decimals (half to even); if `q < 3` it
returns `repetitions' = 0` and `intervalDays' = 1`; if `q ≥ 3` it returns
`repetitions' = r+1` and `intervalDays' = 1` when `r+1 = 1`, `6` when
`r+1 = 2`, and `round(i·ef)` (on the unrounded `ef`) when `r+1 > 2`, with
`intervalDays'` capped at 365. -/
theorem calculate_sm2_spec (quality : ℤ) (e : ℚ) (i r : ℤ)
    (hi : 1 ≤ i) (hr : 0 ≤ r) :
    calculate_sm2 quality e i r =
      { ease_factor := pyRoundTo 2 (max (13/10) (e +
          (1/10 - ((5 - max 0 (min 5 quality) : ℤ) : ℚ) *
            (2/25 + ((5 - max 0 (min 5 quality) : ℤ) : ℚ) * (1/50)))))
        repetitions := if max 0 (min 5 quality) < 3 then 0 else r + 1
        interval_days :=
          min (if max 0 (min 5 quality) < 3 then 1
               else if r + 1 = 1 then 1
               else if r + 1 = 2 then 6
               else pyRound ((i : ℚ) * max (13/10) (e +
                 (1/10 - ((5 - max 0 (min 5 quality) : ℤ) : ℚ) *
                   (2/25 + ((5 - max 0 (min 5 quality) : ℤ) : ℚ) * (1/50))))))
            365 } := by
  unfold calculate_sm2 MIN_EASE_FACTOR
  rcases lt_or_ge (max 0 (min 5 quality)) 3 with h | h
  · simp only [h, if_true]
  · simp only [not_lt.mpr h, if_false]

/-- Witness for C1: quality 4, ease 2.5, interval 10, repetitions 5. -/
theorem calculate_sm2_spec_witness :
    (1 : ℤ) ≤ 10 ∧ (0 : ℤ) ≤ 5 ∧
      calculate_sm2 4 (5/2) 10 5 =
        { ease_factor := pyRoundTo 2 (max (13/10) ((5/2 : ℚ) +
            (1/10 - ((5 - max 0 (min 5 4) : ℤ) : ℚ) *
              (2/25 + ((5 - max 0 (min 5 4) : ℤ) : ℚ) * (1/50)))))
          repetitions := if max 0 (min 5 (4 : ℤ)) < 3 then 0 else 5 + 1
          interval_days :=
            min (if max 0 (min 5 (4 : ℤ)) < 3 then 1
                 else if (5 : ℤ) + 1 = 1 then 1
                 else if (5 : ℤ) + 1 = 2 then 6
                 else pyRound (((10 : ℤ) : ℚ) * max (13/10) ((5/2 : ℚ) +
                   (1/10 - ((5 - max 0 (min 5 4) : ℤ) : ℚ) *
                     (2/25 + ((5 - max 0 (min 5 4) : ℤ) : ℚ) * (1/50))))))
              365 } :=
  ⟨by norm_num, by norm_num, calculate_sm2_spec 4 (5/2) 10 5 (by norm_num) (by norm_num)⟩

/-- A single `calculate_sm2` call returns `easeFactor ≥ 1.3` and
`intervalDays ≤ 365`, for arbitrary inputs. -/
theorem calculate_sm2_bounds (quality : ℤ) (e : ℚ) (i r : ℤ) :
    (13/10 : ℚ) ≤ (calculate_sm2 quality e i r).ease_factor ∧
      (calculate_sm2 quality e i r).interval_days ≤ 365 := by
  constructor
  · show (13/10 : ℚ) ≤ pyRoundTo 2 _
    have h : ((130 : ℤ) : ℚ) / 10 ^ 2 = 13/10 := by norm_num
    rw [← h]
    exact le_pyRoundTo (by rw [h]; exact le_max_left _ _)
  · exact min_le_right _ _

/-- State transition: feed a `calculate_sm2` output back as the next input. -/
def sm2_step (s : SM2Result) (quality : ℤ) : SM2Result :=
  calculate_sm2 quality s.ease_factor s.interval_days s.repetitions

/-- Initial card state: ease 2.5, interval 1 day, 0 repetitions. -/
def sm2_initial : SM2Result :=
  { ease_factor := DEFAULT_EASE_FACTOR, interval_days := 1, repetitions := 0 }

/-- Run a sequence of review qualities from the initial state. -/
def sm2_run (qs : List ℤ) : SM2Result := qs.foldl sm2_step sm2_initial

theorem sm2_run_bounds_aux (l : List ℤ) (s : SM2Result)
    (h : (13/10 : ℚ) ≤ s.ease_factor ∧ s.interval_days ≤ 365) :
    (13/10 : ℚ) ≤ (l.foldl sm2_step s).ease_factor ∧
      (l.foldl sm2_step s).interval_days ≤ 365 := by
  induction l generalizing s with
  | nil => exact h
  | cons a t ih =>
    exact ih (sm2_step s a) (calculate_sm2_bounds a s.ease_factor s.interval_days s.repetitions)

/-- C8: along any finite sequence of reviews started from the initial state
(ease 2.5, interval 1, repetitions 0), with each output fed back as the next
input, every state reached has `easeFactor ≥ 1.3` and `intervalDays ≤ 365`. -/
theorem sm2_run_bounds (qs : List ℤ) (n : ℕ) (hn : 1 ≤ n) (hl : n ≤ qs.length) :
    (13/10 : ℚ) ≤ (sm2_run (qs.take n)).ease_factor ∧
      (sm2_run (qs.take n)).interval_days ≤ 365 := by
  unfold sm2_run
  exact sm2_run_bounds_aux _ _ (by constructor <;> norm_num [sm2_initial, DEFAULT_EASE_FACTOR])

/-- Witness for C8: the run `[5, 5, 5]`, prefix length 2. -/
theorem sm2_run_bounds_witness :
    1 ≤ 2 ∧ 2 ≤ [(5 : ℤ), 5, 5].length ∧
      ((13/10 : ℚ) ≤ (sm2_run ([(5 : ℤ), 5, 5].take 2)).ease_factor ∧
        (sm2_run ([(5 : ℤ), 5, 5].take 2)).interval_days ≤ 365) :=
  ⟨by norm_num, by norm_num, sm2_run_bounds [5, 5, 5] 2 (by norm_num) (by norm_num)⟩

/-! ## Streak state machine (`models/progress.py`, class `Streak`) -/

/-- The streak columns relevant to `update_streak`.  Dates are day numbers,
so `(d2 - d1).days` in Python is exactly `d2 - d1` here. -/
structure Streak where
  current_streak : ℤ
  longest_streak : ℤ
  last_practice_date : Option ℤ
deriving DecidableEq, Repr

/-- Embedding of `Streak.update_streak`: returns the updated state and the
`bool` result (`True` if the streak was maintained/incremented). -/
def Streak.update_streak (s : Streak) (practice_date : ℤ) : Streak × Bool :=
  match s.last_practice_date with
  | none =>
    ({ current_streak := 1
       last_practice_date := some practice_date
       longest_streak := max s.longest_streak 1 }, true)
  | some lastd =>
    let days_diff := practice_date - lastd
    if days_diff = 0 then
      (s, true)
    else if days_diff = 1 then
      ({ current_streak := s.current_streak + 1
         last_practice_date := some practice_date
         longest_streak := max s.longest_streak (s.current_streak + 1) }, true)
    else
      ({ s with current_streak := 1, last_practice_date := some practice_date }, false)

/-- C2: for a practice date not earlier than the stored one, `update_streak`
behaves by the day gap: no stored date → streak 1, maintained; gap 0 →
unchanged, maintained; gap 1 → increment and raise longest, maintained;
gap > 1 → reset to 1, longest unchanged, NOT maintained. -/
theorem update_streak_cases (s : Streak) (d : ℤ)
    (h : ∀ lastd, s.last_practice_date = some lastd → lastd ≤ d) :
    (s.last_practice_date = none →
      s.update_streak d =
        ({ current_streak := 1, longest_streak := max s.longest_streak 1,
           last_practice_date := some d }, true)) ∧
    (∀ lastd, s.last_practice_date = some lastd →
      (d - lastd = 0 → s.update_streak d = (s, true)) ∧
      (d - lastd = 1 → s.update_streak d =
        ({ current_streak := s.current_streak + 1,
           longest_streak := max s.longest_streak (s.current_streak + 1),
           last_practice_date := some d }, true)) ∧
      (1 < d - lastd → s.update_streak d =
        ({ current_streak := 1, longest_streak := s.longest_streak,
           last_practice_date := some d }, false))) := by
  constructor
  · intro hnone
    unfold Streak.update_streak
    rw [hnone]
  · intro lastd hsome
    refine ⟨?_, ?_, ?_⟩
    · intro h0
      unfold Streak.update_streak
      rw [hsome]
      simp only [h0, if_true]
    · intro h1
      unfold Streak.update_streak
      rw [hsome]
      simp only [h1]
      norm_num
    · intro h2
      unfold Streak.update_streak
      rw [hsome]
      have e0 : d - lastd ≠ 0 := by omega
      have e1 : d - lastd ≠ 1 := by omega
      simp only [e0, e1, if_false]

/-- Witness for C2: state (streak 3, longest 5, last day 100), practice on
day 101 (gap 1). -/
theorem update_streak_cases_witness :
    (∀ lastd, (some (100 : ℤ) = some lastd) → lastd ≤ 101) ∧
      (Streak.update_streak
          { current_streak := 3, longest_streak := 5, last_practice_date := some 100 } 101 =
        ({ current_streak := 3 + 1, longest_streak := max 5 (3 + 1),
           last_practice_date := some 101 }, true)) := by
  refine ⟨by intro lastd h; injection h with h; omega, ?_⟩
  have h := update_streak_cases
    { current_streak := 3, longest_streak := 5, last_practice_date := some 100 } 101
    (by intro lastd h; injection h with h; omega)
  exact (h.2 100 rfl).2.1 (by norm_num)

/-- C10: for a practice date strictly earlier than the stored one (negative
gap), `update_streak` takes the streak-broken branch: streak reset to 1,
date moved backward, longest unchanged, result `false`. -/
theorem update_streak_backward (s : Streak) (lastd d : ℤ)
    (hsome : s.last_practice_date = some lastd) (hlt : d < lastd) :
    s.update_streak d =
      ({ current_streak := 1, longest_streak := s.longest_streak,
         last_practice_date := some d }, false) := by
  unfold Streak.update_streak
  rw [hsome]
  have e0 : d - lastd ≠ 0 := by omega
  have e1 : d - lastd ≠ 1 := by omega
  simp only [e0, e1, if_false]

/-- Witness for C10: state (streak 4, longest 6, last day 50), practice on
day 49. -/
theorem update_streak_backward_witness :
    (some (50 : ℤ) = some (50 : ℤ)) ∧ (49 : ℤ) < 50 ∧
      Streak.update_streak
          { current_streak := 4, longest_streak := 6, last_practice_date := some 50 } 49 =
        ({ current_streak := 1, longest_streak := 6, last_practice_date := some 49 }, false) :=
  ⟨rfl, by norm_num,
    update_streak_backward
      { current_streak := 4, longest_streak := 6, last_practice_date := some 50 }
      50 49 rfl (by norm_num)⟩

/-- Initial streak row: both counters 0, no practice date recorded. -/
def streak_initial : Streak :=
  { current_streak := 0, longest_streak := 0, last_practice_date := none }

/-- Apply a sequence of `update_streak` calls from the initial state. -/
def streak_run (dates : List ℤ) : Streak :=
  dates.foldl (fun s d => (s.update_streak d).1) streak_initial

/-- The streak invariant: counters nonnegative, longest dominates current,
and any state with a recorded practice date has a positive current streak. -/
def streak_inv (s : Streak) : Prop :=
  0 ≤ s.current_streak ∧ s.current_streak ≤ s.longest_streak ∧
    (s.last_practice_date ≠ none → 1 ≤ s.current_streak)

theorem update_streak_preserves_inv (s : Streak) (d : ℤ) (h : streak_inv s) :
    streak_inv (s.update_streak d).1 ∧
      s.longest_streak ≤ (s.update_streak d).1.longest_streak := by
  obtain ⟨h0, h1, h2⟩ := h
  unfold Streak.update_streak
  match hl : s.last_practice_date with
  | none =>
    dsimp only
    refine ⟨⟨by norm_num, ?_, fun _ => le_refl _⟩, le_max_left _ _⟩
    exact le_max_of_le_right (by norm_num)
  | some lastd =>
    have hc : 1 ≤ s.current_streak := h2 (by rw [hl]; simp)
    dsimp only
    by_cases e0 : d - lastd = 0
    · rw [if_pos e0]
      exact ⟨⟨h0, h1, fun _ => hc⟩, le_refl _⟩
    · rw [if_neg e0]
      by_cases e1 : d - lastd = 1
      · rw [if_pos e1]
        refine ⟨⟨by dsimp only; omega, ?_, fun _ => by dsimp only; omega⟩, le_max_left _ _⟩
        exact le_max_right _ _
      · rw [if_neg e1]
        refine ⟨⟨by norm_num, by dsimp only; omega, fun _ => le_refl _⟩, le_refl _⟩

theorem streak_run_inv_aux (l : List ℤ) (s : Streak) (h : streak_inv s) :
    streak_inv (l.foldl (fun s d => (s.update_streak d).1) s) := by
  induction l generalizing s with
  | nil => exact h
  | cons a t ih => exact ih _ (update_streak_preserves_inv s a h).1

theorem streak_longest_mono_aux (l : List ℤ) (s : Streak) (h : streak_inv s) :
    s.longest_streak ≤ (l.foldl (fun s d => (s.update_streak d).1) s).longest_streak := by
  induction l generalizing s with
  | nil => exact le_refl _
  | cons a t ih =>
    obtain ⟨hinv, hmono⟩ := update_streak_preserves_inv s a h
    exact le_trans hmono (ih _ hinv)

/-- C9: every state reachable from the initial streak by `update_streak`
calls with non-decreasing practice dates satisfies
`longestStreak ≥ currentStreak ≥ 0` after every call, and `longestStreak`
never decreases across calls. -/
theorem streak_run_inv (dates : List ℤ) (hsorted : dates.Chain' (· ≤ ·))
    (n m : ℕ) (hnm : n ≤ m) :
    streak_inv (streak_run (dates.take n)) ∧
      (streak_run (dates.take n)).longest_streak ≤
        (streak_run (dates.take m)).longest_streak := by
  have hinit : streak_inv streak_initial :=
    ⟨le_refl _, le_refl _, fun hx => absurd rfl hx⟩
  refine ⟨streak_run_inv_aux _ _ hinit, ?_⟩
  have hsplit : dates.take m = dates.take n ++ (dates.drop n).take (m - n) := by
    conv_lhs => rw [show m = n + (m - n) by omega]
    exact List.take_add dates n (m - n)
  unfold streak_run
  rw [hsplit, List.foldl_append]
  exact streak_longest_mono_aux _ _ (streak_run_inv_aux _ _ hinit)

/-- Witness for C9: dates `[3, 4, 10]`, prefixes of length 2 and 3. -/
theorem streak_run_inv_witness :
    [(3 : ℤ), 4, 10].Chain' (· ≤ ·) ∧ 2 ≤ 3 ∧
      (streak_inv (streak_run ([(3 : ℤ), 4, 10].take 2)) ∧
        (streak_run ([(3 : ℤ), 4, 10].take 2)).longest_streak ≤
          (streak_run ([(3 : ℤ), 4, 10].take 3)).longest_streak) :=
  ⟨by norm_num [List.chain'_cons], by norm_num,
    streak_run_inv [3, 4, 10] (by norm_num [List.chain'_cons]) 2 3 (by norm_num)⟩

/-! ## Review-queue priority (`spaced_repetition.py`, `calculate_priority`) -/

/-- Embedding of `calculate_priority`.  `datetime.utcnow()` is passed in as
the whole-second timestamp `now`; `next_review_at` likewise.  A nonnegative
Python `timedelta` has `.days = total // 86400` and
`.seconds = total % 86400`, so `overdue_hours = (total % 86400) // 3600`. -/
def calculate_priority (next_review_at now : ℤ) (ease_factor : ℚ)
    (repetitions : ℤ) : ℤ × ℤ :=
  let od : ℤ × ℤ :=
    if next_review_at ≤ now then
      ((now - next_review_at) / 86400, ((now - next_review_at) % 86400) / 3600)
    else (0, 0)
  let priority := od.1 * 100 + od.2
  let priority := priority + max 0 (pyInt ((5/2 - ease_factor) / (6/5) * 20))
  let priority :=
    if repetitions < 3 then priority + (3 - repetitions) * 10 else priority
  (priority, od.1)

/-- C5 counterexample: the claim computes the ease bonus with `round`, but
the code uses Python `int()`, which truncates toward zero.  At
`ease = 2.41` (due now, 3 repetitions) the raw bonus is `1.5`: the code
truncates to 1 while the claim's `round` gives 2. -/
theorem calculate_priority_bonus_not_round :
    (calculate_priority 0 0 (241/100) 3).1 ≠
      max 0 (pyRound ((5/2 - 241/100) / (6/5) * 20)) := by
  unfold calculate_priority pyInt pyRound
  norm_num

/-- C5 (amended): `calculate_priority` returns
`overdueDays = max(0, floor of elapsed days since nextReviewAt)` and
`score = overdueDays·100 + overdueHours + easeBonus + repBonus`, where
`overdueHours` is the sub-day overdue hours (0 when not past due),
`easeBonus = max(0, int((2.5−ease)/1.2·20))` with `int` truncating toward
zero (not `round`), and `repBonus = (3−reps)·10` only when `reps < 3`. -/
theorem calculate_priority_spec (next now : ℤ) (ease : ℚ) (reps : ℤ) :
    calculate_priority next now ease reps =
      (max 0 ((now - next) / 86400) * 100
        + (if next ≤ now then ((now - next) % 86400) / 3600 else 0)
        + max 0 (pyInt ((5/2 - ease) / (6/5) * 20))
        + (if reps < 3 then (3 - reps) * 10 else 0),
       max 0 ((now - next) / 86400)) := by
  unfold calculate_priority
  by_cases hle : next ≤ now
  · rw [if_pos hle, if_pos hle]
    dsimp only
    have h0 : 0 ≤ (now - next) / 86400 := Int.ediv_nonneg (by omega) (by norm_num)
    rw [max_eq_right h0]
    by_cases hr : reps < 3
    · rw [if_pos hr, if_pos hr]
    · rw [if_neg hr, if_neg hr, add_zero]
  · rw [if_neg hle, if_neg hle]
    dsimp only
    have h0 : (now - next) / 86400 ≤ 0 := by omega
    rw [max_eq_left h0]
    by_cases hr : reps < 3
    · rw [if_pos hr, if_pos hr]
    · rw [if_neg hr, if_neg hr]
      simp only [add_zero]

/-! ## Mastery percentage (`spaced_repetition.py`, `calculate_mastery_percent`) -/

/-- Embedding of `calculate_mastery_percent`. -/
def calculate_mastery_percent (ease_factor : ℚ) (repetitions : ℤ)
    (correct_reviews : ℤ) (total_reviews : ℤ) : ℚ :=
  if total_reviews = 0 then 0
  else
    let accuracy := (correct_reviews : ℚ) / total_reviews
    let accuracy_score := accuracy * 40
    let ef_normalized := min 1 (max 0 ((ease_factor - 13/10) / (17/10)))
    let ef_score := ef_normalized * 30
    let rep_normalized := min 1 ((repetitions : ℚ) / 5)
    let rep_score := rep_normalized * 30
    pyRoundTo 1 (accuracy_score + ef_score + rep_score)

/-- C6: `calculate_mastery_percent` returns exactly 0 when `totalReviews = 0`
and otherwise the blend
`40·(correct/total) + 30·clamp((ease−1.3)/1.7, 0, 1) + 30·min(1, reps/5)`
rounded to one decimal; for `total ≥ 0`, `0 ≤ correct ≤ total`, `reps ≥ 0`
the result lies in `[0, 100]`. -/
theorem calculate_mastery_percent_spec (e : ℚ) (reps correct total : ℤ)
    (htotal : 0 ≤ total) (hc0 : 0 ≤ correct) (hct : correct ≤ total) (hr : 0 ≤ reps) :
    (total = 0 → calculate_mastery_percent e reps correct total = 0) ∧
    (total ≠ 0 → calculate_mastery_percent e reps correct total =
      pyRoundTo 1 (40 * ((correct : ℚ) / total)
        + 30 * min 1 (max 0 ((e - 13/10) / (17/10)))
        + 30 * min 1 ((reps : ℚ) / 5))) ∧
    0 ≤ calculate_mastery_percent e reps correct total ∧
    calculate_mastery_percent e reps correct total ≤ 100 := by
  by_cases ht : total = 0
  · unfold calculate_mastery_percent
    rw [if_pos ht]
    exact ⟨fun _ => rfl, fun hne => absurd ht hne, by norm_num, by norm_num⟩
  · unfold calculate_mastery_percent
    rw [if_neg ht]
    dsimp only
    have htpos : (0 : ℚ) < total := by
      have : 0 < total := lt_of_le_of_ne htotal (Ne.symm ht)
      exact_mod_cast this
    have hacc0 : 0 ≤ (correct : ℚ) / total :=
      div_nonneg (by exact_mod_cast hc0) (le_of_lt htpos)
    have hacc1 : (correct : ℚ) / total ≤ 1 :=
      (div_le_one htpos).mpr (by exact_mod_cast hct)
    have hef0 : (0 : ℚ) ≤ min 1 (max 0 ((e - 13/10) / (17/10))) :=
      le_min (by norm_num) (le_max_left 0 _)
    have hef1 : min 1 (max 0 ((e - 13/10) / (17/10))) ≤ 1 := min_le_left _ _
    have hrep0 : (0 : ℚ) ≤ min 1 ((reps : ℚ) / 5) :=
      le_min (by norm_num) (div_nonneg (by exact_mod_cast hr) (by norm_num))
    have hrep1 : min 1 ((reps : ℚ) / 5) ≤ 1 := min_le_left _ _
    have hsum0 : (0 : ℚ) ≤ (correct : ℚ) / total * 40
        + min 1 (max 0 ((e - 13/10) / (17/10))) * 30 + min 1 ((reps : ℚ) / 5) * 30 := by
      have a1 := mul_nonneg hacc0 (by norm_num : (0:ℚ) ≤ 40)
      have a2 := mul_nonneg hef0 (by norm_num : (0:ℚ) ≤ 30)
      have a3 := mul_nonneg hrep0 (by norm_num : (0:ℚ) ≤ 30)
      linarith
    have hsum100 : (correct : ℚ) / total * 40
        + min 1 (max 0 ((e - 13/10) / (17/10))) * 30 + min 1 ((reps : ℚ) / 5) * 30 ≤ 100 := by
      have a1 := mul_le_mul_of_nonneg_right hacc1 (by norm_num : (0:ℚ) ≤ 40)
      have a2 := mul_le_mul_of_nonneg_right hef1 (by norm_num : (0:ℚ) ≤ 30)
      have a3 := mul_le_mul_of_nonneg_right hrep1 (by norm_num : (0:ℚ) ≤ 30)
      linarith
    refine ⟨fun h => absurd h ht, fun _ => by congr 1; ring, ?_, ?_⟩
    · exact pyRoundTo_nonneg 1 _ hsum0
    · exact pyRoundTo_one_le _ hsum100

/-- Witness for C6: ease 3, repetitions 5, 1 of 2 reviews correct. -/
theorem calculate_mastery_percent_spec_witness :
    (0 : ℤ) ≤ 2 ∧ (0 : ℤ) ≤ 1 ∧ (1 : ℤ) ≤ 2 ∧ (0 : ℤ) ≤ 5 ∧
      (((2 : ℤ) = 0 → calculate_mastery_percent 3 5 1 2 = 0) ∧
       ((2 : ℤ) ≠ 0 → calculate_mastery_percent 3 5 1 2 =
         pyRoundTo 1 (40 * (((1 : ℤ) : ℚ) / ((2 : ℤ) : ℚ))
           + 30 * min 1 (max 0 (((3 : ℚ) - 13/10) / (17/10)))
           + 30 * min 1 (((5 : ℤ) : ℚ) / 5))) ∧
       0 ≤ calculate_mastery_percent 3 5 1 2 ∧
       calculate_mastery_percent 3 5 1 2 ≤ 100) :=
  ⟨by norm_num, by norm_num, by norm_num, by norm_num,
    calculate_mastery_percent_spec 3 5 1 2 (by norm_num) (by norm_num) (by norm_num) (by norm_num)⟩

/-! ## Achievement evaluation (`progress_service.py`,
`check_and_award_achievements` / `_get_achievement_progress`)

The database rows are modelled positionally: the loop receives the list of
all achievements each paired with the user's `UserAchievement` row for it
(or `none`), plus the activity counters and the user's `total_xp`.  The
`total_xp` requirement type re-reads `user.total_xp`, which the loop itself
mutates when awarding XP, so XP is threaded through the fold exactly as the
ORM identity map does. -/

/-- The `requirement_type` strings dispatched by `_get_achievement_progress`;
`other` stands for any unrecognized string (the function returns 0). -/
inductive ReqType
  | streak | longest_streak | vocab_count | listening_count | speaking_count
  | total_xp | first | other
deriving DecidableEq, Repr

/-- The `category` strings that matter for `first`-type achievements. -/
inductive Category
  | vocabulary | listening | speaking | other
deriving DecidableEq, Repr

/-- The `Achievement` columns read by the evaluation loop. -/
structure Achievement where
  requirement_type : ReqType
  category : Category
  requirement_value : ℤ
  xp_reward : ℤ
deriving DecidableEq, Repr

/-- The `UserAchievement` columns written by the evaluation loop. -/
structure UserAchievement where
  progress : ℤ
  is_unlocked : Bool
deriving DecidableEq, Repr

/-- The activity counters gathered before the loop (streak row plus the
three distinct-completion counts). -/
structure Counters where
  current_streak : ℤ
  longest_streak : ℤ
  vocab_count : ℤ
  listening_count : ℤ
  speaking_count : ℤ
deriving DecidableEq, Repr

/-- Embedding of `_get_achievement_progress`. -/
def get_achievement_progress (a : Achievement) (c : Counters) (total_xp : ℤ) : ℤ :=
  match a.requirement_type with
  | .streak => c.current_streak
  | .longest_streak => c.longest_streak
  | .vocab_count => c.vocab_count
  | .listening_count => c.listening_count
  | .speaking_count => c.speaking_count
  | .total_xp => total_xp
  | .first =>
    match a.category with
    | .vocabulary => if 0 < c.vocab_count then 1 else 0
    | .listening => if 0 < c.listening_count then 1 else 0
    | .speaking => if 0 < c.speaking_count then 1 else 0
    | .other => 0
  | .other => 0

/-- One iteration of the `check_and_award_achievements` loop on a single
achievement: returns the updated row, the updated `total_xp`, and whether
the achievement was newly unlocked (appended to the response list). -/
def check_one (c : Counters) (a : Achievement) (ua : Option UserAchievement)
    (xp : ℤ) : Option UserAchievement × ℤ × Bool :=
  match ua with
  | some u =>
    if u.is_unlocked then
      (some u, xp, false)
    else
      let cv := get_achievement_progress a c xp
      if a.requirement_value ≤ cv then
        (some { progress := cv, is_unlocked := true }, xp + a.xp_reward, true)
      else
        (some { u with progress := cv }, xp, false)
  | none =>
    let cv := get_achievement_progress a c xp
    if a.requirement_value ≤ cv then
      (some { progress := cv, is_unlocked := true }, xp + a.xp_reward, true)
    else if 0 < cv then
      (some { progress := cv, is_unlocked := false }, xp, false)
    else
      (none, xp, false)

/-- Embedding of the `check_and_award_achievements` loop: folds `check_one`
over the achievement list, threading `total_xp`, and collects the updated
rows and the newly unlocked achievements in iteration order. -/
def check_and_award_achievements (c : Counters) :
    ℤ → List (Achievement × Option UserAchievement) →
      ℤ × List (Achievement × Option UserAchievement) × List Achievement
  | xp, [] => (xp, [], [])
  | xp, (a, ua) :: rest =>
    let r := check_one c a ua xp
    let tail := check_and_award_achievements c r.2.1 rest
    (tail.1, (a, r.1) :: tail.2.1, if r.2.2 then a :: tail.2.2 else tail.2.2)

/-- `is_unlocked` of an optional row (`False` when the row is absent). -/
def is_unlocked_opt : Option UserAchievement → Bool
  | some u => u.is_unlocked
  | none => false

/-- Total XP awarded between an input row list and an output row list: the
sum of `xp_reward` over positions that flipped from locked to unlocked. -/
def awarded_sum : List (Achievement × Option UserAchievement) →
    List (Achievement × Option UserAchievement) → ℤ
  | (a, ua) :: t1, (_, ua2) :: t2 =>
    (if ¬ is_unlocked_opt ua = true ∧ is_unlocked_opt ua2 = true
      then a.xp_reward else 0) + awarded_sum t1 t2
  | _, _ => 0

/-- For every requirement type except `total_xp`, the computed progress does
not depend on the threaded XP value. -/
theorem get_achievement_progress_xp_indep (a : Achievement) (c : Counters)
    (xp xp2 : ℤ) (ha : a.requirement_type ≠ ReqType.total_xp) :
    get_achievement_progress a c xp2 = get_achievement_progress a c xp := by
  unfold get_achievement_progress
  match h : a.requirement_type with
  | .streak | .longest_streak | .vocab_count | .listening_count
  | .speaking_count | .first | .other => rfl
  | .total_xp => exact absurd h ha

/-- `check_one` on an already-unlocked row is the identity. -/
theorem check_one_unlocked (c : Counters) (a : Achievement) (u : UserAchievement)
    (xp : ℤ) (hu : u.is_unlocked = true) :
    check_one c a (some u) xp = (some u, xp, false) := by
  unfold check_one
  dsimp only
  rw [hu, if_pos rfl]

/-- `check_one` on a locked row that meets the requirement: unlocks, awards. -/
theorem check_one_locked_hit (c : Counters) (a : Achievement) (u : UserAchievement)
    (xp : ℤ) (hu : u.is_unlocked = false)
    (hreq : a.requirement_value ≤ get_achievement_progress a c xp) :
    check_one c a (some u) xp =
      (some { progress := get_achievement_progress a c xp, is_unlocked := true },
        xp + a.xp_reward, true) := by
  unfold check_one
  dsimp only
  rw [hu, if_neg (by simp), if_pos hreq]

/-- `check_one` on a locked row that misses the requirement: overwrites the
stored progress with the current value. -/
theorem check_one_locked_miss (c : Counters) (a : Achievement) (u : UserAchievement)
    (xp : ℤ) (hu : u.is_unlocked = false)
    (hreq : ¬ a.requirement_value ≤ get_achievement_progress a c xp) :
    check_one c a (some u) xp =
      (some { progress := get_achievement_progress a c xp, is_unlocked := false },
        xp, false) := by
  unfold check_one
  dsimp only
  rw [hu, if_neg (by simp), if_neg hreq]

/-- `check_one` with no row, requirement met: creates an unlocked row. -/
theorem check_one_none_hit (c : Counters) (a : Achievement) (xp : ℤ)
    (hreq : a.requirement_value ≤ get_achievement_progress a c xp) :
    check_one c a none xp =
      (some { progress := get_achievement_progress a c xp, is_unlocked := true },
        xp + a.xp_reward, true) := by
  unfold check_one
  dsimp only
  rw [if_pos hreq]

/-- `check_one` with no row, requirement missed but positive progress:
creates a locked row holding the current value. -/
theorem check_one_none_mid (c : Counters) (a : Achievement) (xp : ℤ)
    (hreq : ¬ a.requirement_value ≤ get_achievement_progress a c xp)
    (hpos : 0 < get_achievement_progress a c xp) :
    check_one c a none xp =
      (some { progress := get_achievement_progress a c xp, is_unlocked := false },
        xp, false) := by
  unfold check_one
  dsimp only
  rw [if_neg hreq, if_pos hpos]

/-- `check_one` with no row and no progress: leaves no row. -/
theorem check_one_none_zero (c : Counters) (a : Achievement) (xp : ℤ)
    (hreq : ¬ a.requirement_value ≤ get_achievement_progress a c xp)
    (hpos : ¬ 0 < get_achievement_progress a c xp) :
    check_one c a none xp = (none, xp, false) := by
  unfold check_one
  dsimp only
  rw [if_neg hreq, if_neg hpos]

/-- Re-running `check_one` on its own output row is a no-op for non-`total_xp`
achievements: the row is unchanged, no XP is added, nothing is reported. -/
theorem check_one_stable (c : Counters) (a : Achievement)
    (ua : Option UserAchievement) (xp xp2 : ℤ)
    (ha : a.requirement_type ≠ ReqType.total_xp) :
    check_one c a (check_one c a ua xp).1 xp2 = ((check_one c a ua xp).1, xp2, false) := by
  have hgap : get_achievement_progress a c xp2 = get_achievement_progress a c xp :=
    get_achievement_progress_xp_indep a c xp xp2 ha
  match ua with
  | some u =>
    rcases Bool.eq_false_or_eq_true u.is_unlocked with hu | hu
    · rw [check_one_unlocked c a u xp hu, check_one_unlocked c a u xp2 hu]
    · by_cases hreq : a.requirement_value ≤ get_achievement_progress a c xp
      · rw [check_one_locked_hit c a u xp hu hreq]
        rw [check_one_unlocked _ _ _ _ rfl]
      · rw [check_one_locked_miss c a u xp hu hreq]
        rw [check_one_locked_miss c a _ xp2 rfl (by rw [hgap]; exact hreq), hgap]
  | none =>
    by_cases hreq : a.requirement_value ≤ get_achievement_progress a c xp
    · rw [check_one_none_hit c a xp hreq]
      rw [check_one_unlocked _ _ _ _ rfl]
    · by_cases hpos : 0 < get_achievement_progress a c xp
      · rw [check_one_none_mid c a xp hreq hpos]
        rw [check_one_locked_miss c a _ xp2 rfl (by rw [hgap]; exact hreq), hgap]
      · rw [check_one_none_zero c a xp hreq hpos]
        rw [check_one_none_zero c a xp2 (by rw [hgap]; exact hreq)
          (by rw [hgap]; exact hpos)]

theorem check_idem_aux (c : Counters) (l : List (Achievement × Option UserAchievement)) :
    ∀ (xp xp2 : ℤ), (∀ p ∈ l, p.1.requirement_type ≠ ReqType.total_xp) →
      check_and_award_achievements c xp2 (check_and_award_achievements c xp l).2.1 =
        (xp2, (check_and_award_achievements c xp l).2.1, []) := by
  induction l with
  | nil => intro xp xp2 _; rfl
  | cons p t ih =>
    intro xp xp2 h
    obtain ⟨a, ua⟩ := p
    have ha : a.requirement_type ≠ ReqType.total_xp := h (a, ua) (List.mem_cons_self _ _)
    have ht : ∀ q ∈ t, q.1.requirement_type ≠ ReqType.total_xp :=
      fun q hq => h q (List.mem_cons_of_mem _ hq)
    show check_and_award_achievements c xp2
        ((a, (check_one c a ua xp).1) ::
          (check_and_award_achievements c (check_one c a ua xp).2.1 t).2.1) = _
    unfold check_and_award_achievements
    rw [check_one_stable c a ua xp xp2 ha]
    dsimp only
    rw [ih (check_one c a ua xp).2.1 xp2 ht]
    simp

theorem check_zip_unlocked (c : Counters) (l : List (Achievement × Option UserAchievement)) :
    ∀ (xp : ℤ), ∀ p ∈ l.zip (check_and_award_achievements c xp l).2.1,
      is_unlocked_opt p.1.2 = true → p.2 = p.1 := by
  induction l with
  | nil => intro xp p hp; simp at hp
  | cons q t ih =>
    intro xp p hp hu
    obtain ⟨a, ua⟩ := q
    rw [show (check_and_award_achievements c xp ((a, ua) :: t)).2.1 =
        (a, (check_one c a ua xp).1) ::
          (check_and_award_achievements c (check_one c a ua xp).2.1 t).2.1 from rfl] at hp
    rw [List.zip_cons_cons, List.mem_cons] at hp
    rcases hp with hp | hp
    · subst hp
      match ua, hu with
      | some u, hu =>
        rw [check_one_unlocked c a u xp hu]
    · exact ih (check_one c a ua xp).2.1 p hp hu

/-- `check_one` adds the achievement's XP exactly when the row flips from
locked to unlocked. -/
theorem check_one_xp (c : Counters) (a : Achievement) (ua : Option UserAchievement)
    (xp : ℤ) :
    (check_one c a ua xp).2.1 = xp +
      (if ¬ is_unlocked_opt ua = true ∧ is_unlocked_opt (check_one c a ua xp).1 = true
        then a.xp_reward else 0) := by
  match ua with
  | some u =>
    rcases Bool.eq_false_or_eq_true u.is_unlocked with hu | hu
    · rw [check_one_unlocked c a u xp hu]
      rw [if_neg (by simp [is_unlocked_opt, hu])]
      ring
    · by_cases hreq : a.requirement_value ≤ get_achievement_progress a c xp
      · rw [check_one_locked_hit c a u xp hu hreq]
        rw [if_pos (by simp [is_unlocked_opt, hu])]
      · rw [check_one_locked_miss c a u xp hu hreq]
        rw [if_neg (by simp [is_unlocked_opt, hu])]
        ring
  | none =>
    by_cases hreq : a.requirement_value ≤ get_achievement_progress a c xp
    · rw [check_one_none_hit c a xp hreq]
      rw [if_pos (by simp [is_unlocked_opt])]
    · by_cases hpos : 0 < get_achievement_progress a c xp
      · rw [check_one_none_mid c a xp hreq hpos]
        rw [if_neg (by simp [is_unlocked_opt])]
        ring
      · rw [check_one_none_zero c a xp hreq hpos]
        rw [if_neg (by simp [is_unlocked_opt])]
        ring

theorem check_xp_awarded (c : Counters) (l : List (Achievement × Option UserAchievement)) :
    ∀ (xp : ℤ), (check_and_award_achievements c xp l).1 =
      xp + awarded_sum l (check_and_award_achievements c xp l).2.1 := by
  induction l with
  | nil => intro xp; simp [check_and_award_achievements, awarded_sum]
  | cons q t ih =>
    intro xp
    obtain ⟨a, ua⟩ := q
    show (check_and_award_achievements c (check_one c a ua xp).2.1 t).1 =
      xp + awarded_sum ((a, ua) :: t)
        ((a, (check_one c a ua xp).1) ::
          (check_and_award_achievements c (check_one c a ua xp).2.1 t).2.1)
    rw [ih (check_one c a ua xp).2.1]
    rw [show awarded_sum ((a, ua) :: t)
        ((a, (check_one c a ua xp).1) ::
          (check_and_award_achievements c (check_one c a ua xp).2.1 t).2.1) =
      (if ¬ is_unlocked_opt ua = true ∧ is_unlocked_opt (check_one c a ua xp).1 = true
        then a.xp_reward else 0) +
        awarded_sum t (check_and_award_achievements c (check_one c a ua xp).2.1 t).2.1
      from rfl]
    rw [check_one_xp c a ua xp]
    ring


/-- C3 counterexample: counters with one vocabulary item recorded. -/
def cascade_counters : Counters :=
  { current_streak := 0
    longest_streak := 0
    vocab_count := 1
    listening_count := 0
    speaking_count := 0 }

/-- A `total_xp ≥ 100` achievement worth 20 XP. -/
def xp100_achievement : Achievement :=
  { requirement_type := ReqType.total_xp
    category := Category.other
    requirement_value := 100
    xp_reward := 20 }

/-- A `vocab_count ≥ 1` achievement worth 50 XP. -/
def vocab1_achievement : Achievement :=
  { requirement_type := ReqType.vocab_count
    category := Category.other
    requirement_value := 1
    xp_reward := 50 }

/-- C3 counterexample achievement list: the `total_xp` achievement iterated
before the vocabulary achievement, neither with an existing row. -/
def cascade_rows : List (Achievement × Option UserAchievement) :=
  [(xp100_achievement, none), (vocab1_achievement, none)]

/-- C3 counterexample: starting from 90 XP, the first call unlocks the
vocabulary achievement (awarding 50 XP, reaching 140), and the second call —
with identical counters — unlocks the `total_xp` achievement that the first
call's award enabled, changing both the XP total and the unlocked set.  The
second call is therefore not a no-op. -/
theorem check_and_award_not_idempotent :
    (check_and_award_achievements cascade_counters
        (check_and_award_achievements cascade_counters 90 cascade_rows).1
        (check_and_award_achievements cascade_counters 90 cascade_rows).2.1).1 ≠
      (check_and_award_achievements cascade_counters 90 cascade_rows).1 ∧
    (check_and_award_achievements cascade_counters
        (check_and_award_achievements cascade_counters 90 cascade_rows).1
        (check_and_award_achievements cascade_counters 90 cascade_rows).2.1).2.2 ≠ [] := by
  decide

/-- C3 (amended): (i) when no achievement has requirement type `total_xp`,
re-running the evaluation with unchanged counters after the first call is a
no-op: identical rows, identical XP, and nothing newly unlocked;
(ii) unconditionally, a row already unlocked on entry passes through any
call unchanged; (iii) a call's XP delta is exactly the sum of the rewards of
rows that flipped from locked to unlocked in that call, so one achievement's
XP is never awarded twice. -/
theorem check_and_award_spec (c : Counters) (xp : ℤ)
    (l : List (Achievement × Option UserAchievement)) :
    ((∀ p ∈ l, p.1.requirement_type ≠ ReqType.total_xp) →
      check_and_award_achievements c (check_and_award_achievements c xp l).1
          (check_and_award_achievements c xp l).2.1 =
        ((check_and_award_achievements c xp l).1,
          (check_and_award_achievements c xp l).2.1, [])) ∧
    (∀ p ∈ l.zip (check_and_award_achievements c xp l).2.1,
      is_unlocked_opt p.1.2 = true → p.2 = p.1) ∧
    (check_and_award_achievements c xp l).1 =
      xp + awarded_sum l (check_and_award_achievements c xp l).2.1 :=
  ⟨fun h => check_idem_aux c l xp (check_and_award_achievements c xp l).1 h,
    check_zip_unlocked c l xp, check_xp_awarded c l xp⟩

/-- Witness for C3: one `vocab_count ≥ 1` achievement with one vocabulary
item recorded; the first call unlocks it and the second call is a no-op. -/
theorem check_and_award_spec_witness :
    (∀ p ∈ [((vocab1_achievement : Achievement), (none : Option UserAchievement))],
      p.1.requirement_type ≠ ReqType.total_xp) ∧
    check_and_award_achievements cascade_counters
        (check_and_award_achievements cascade_counters 0
          [(vocab1_achievement, none)]).1
        (check_and_award_achievements cascade_counters 0
          [(vocab1_achievement, none)]).2.1 =
      ((check_and_award_achievements cascade_counters 0
          [(vocab1_achievement, none)]).1,
        (check_and_award_achievements cascade_counters 0
          [(vocab1_achievement, none)]).2.1, []) :=
  ⟨by decide,
    (check_and_award_spec cascade_counters 0 [(vocab1_achievement, none)]).1 (by decide)⟩

/-- A `streak ≥ 30` achievement worth 100 XP. -/
def streak30_achievement : Achievement :=
  { requirement_type := ReqType.streak
    category := Category.other
    requirement_value := 30
    xp_reward := 100 }

/-- Counters right after a streak break: current streak back to 1. -/
def broken_streak_counters : Counters :=
  { current_streak := 1
    longest_streak := 10
    vocab_count := 0
    listening_count := 0
    speaking_count := 0 }

/-- A locked achievement row with stored progress 10. -/
def progress10_row : UserAchievement :=
  { progress := 10, is_unlocked := false }

/-- C7 counterexample: a locked `streak ≥ 30` achievement with stored
progress 10; after the streak breaks (`currentStreak = 1`) the evaluation
overwrites the stored progress with 1, lowering it. -/
theorem achievement_progress_can_decrease :
    (check_and_award_achievements broken_streak_counters 0
        [(streak30_achievement, some progress10_row)]).2.1 =
      [(streak30_achievement, some { progress := 1, is_unlocked := false })] ∧
    ¬ ((10 : ℤ) ≤ 1) := by
  decide

/-- C7 (amended): for a locked row of a non-`total_xp` achievement, an
evaluation call overwrites the stored progress with the currently computed
counter value (unlocking exactly when it meets the requirement); the stored
value is hence non-decreasing only while the underlying counter does not
decrease, and a streak reset lowers it. -/
theorem achievement_progress_overwrite (c : Counters)
    (l : List (Achievement × Option UserAchievement)) :
    ∀ (xp : ℤ), ∀ p ∈ l.zip (check_and_award_achievements c xp l).2.1,
      ∀ u : UserAchievement, p.1.2 = some u → u.is_unlocked = false →
      p.1.1.requirement_type ≠ ReqType.total_xp →
      p.2.2 = some
        { progress := get_achievement_progress p.1.1 c xp
          is_unlocked :=
            if p.1.1.requirement_value ≤ get_achievement_progress p.1.1 c xp
            then true else false } := by
  induction l with
  | nil => intro xp p hp; simp at hp
  | cons q t ih =>
    intro xp p hp u hsome hu hne
    obtain ⟨a, ua⟩ := q
    rw [show (check_and_award_achievements c xp ((a, ua) :: t)).2.1 =
        (a, (check_one c a ua xp).1) ::
          (check_and_award_achievements c (check_one c a ua xp).2.1 t).2.1 from rfl] at hp
    rw [List.zip_cons_cons, List.mem_cons] at hp
    rcases hp with hp | hp
    · subst hp
      dsimp only at hsome hu ⊢
      subst hsome
      by_cases hreq : a.requirement_value ≤ get_achievement_progress a c xp
      · rw [check_one_locked_hit c a u xp hu hreq, if_pos hreq]
      · rw [check_one_locked_miss c a u xp hu hreq, if_neg hreq]
    · have h := ih (check_one c a ua xp).2.1 p hp u hsome hu hne
      rw [get_achievement_progress_xp_indep p.1.1 c xp (check_one c a ua xp).2.1 hne] at h
      exact h

/-- Counters with a current streak of 7. -/
def streak7_counters : Counters :=
  { current_streak := 7
    longest_streak := 7
    vocab_count := 0
    listening_count := 0
    speaking_count := 0 }

/-- A locked achievement row with stored progress 3. -/
def progress3_row : UserAchievement :=
  { progress := 3, is_unlocked := false }

/-- Witness for C7: a locked `streak ≥ 30` achievement with stored progress
3 and current streak 7: the call stores 7 and leaves it locked. -/
theorem achievement_progress_overwrite_witness :
    ((streak30_achievement, some progress3_row),
      (streak30_achievement, some ({ progress := 7, is_unlocked := false } : UserAchievement))) ∈
        [(streak30_achievement, some progress3_row)].zip
          (check_and_award_achievements streak7_counters 0
            [(streak30_achievement, some progress3_row)]).2.1 ∧
    progress3_row.is_unlocked = false ∧
    streak30_achievement.requirement_type ≠ ReqType.total_xp ∧
    (some ({ progress := 7, is_unlocked := false } : UserAchievement) =
      some
        { progress := get_achievement_progress streak30_achievement streak7_counters 0
          is_unlocked :=
            if streak30_achievement.requirement_value ≤
                get_achievement_progress streak30_achievement streak7_counters 0
            then true else false }) :=
  ⟨by decide, by decide, by decide,
    achievement_progress_overwrite streak7_counters
      [(streak30_achievement, some progress3_row)] 0
      ((streak30_achievement, some progress3_row),
        (streak30_achievement, some ({ progress := 7, is_unlocked := false } : UserAchievement)))
      (by decide) progress3_row rfl rfl (by decide)⟩

/-! ## Predicted ICAO level

Two implementations exist in the repository.  The live one is
`ProgressService._calculate_predicted_icao_level` (`progress_service.py`),
which combines the rounded *average* of the six ICAO criteria with fixed
weights 60/25/15.  The repository also contains
`calculate_predicted_icao_level` in `icao_scoring.py` — documented
"ICAO level is based on lowest criteria score" — which gates speaking by the
*minimum* criterion, falls back to the vocab/listening average when no
speaking data exists, and uses default weights 50/25/25.  Nothing calls the
latter.  The Python field `structure` is a Lean keyword and is embedded as
`structure_`. -/

/-- The six-criteria record `ICAOCriteriaProgress` (`schemas/progress.py`). -/
structure ICAOCriteriaProgress where
  pronunciation : ℚ
  structure_ : ℚ
  vocabulary : ℚ
  fluency : ℚ
  comprehension : ℚ
  interaction : ℚ
deriving DecidableEq, Repr

/-- `ICAOCriteriaProgress.average`: mean of the six criteria, rounded to two
decimals. -/
def ICAOCriteriaProgress.average (c : ICAOCriteriaProgress) : ℚ :=
  pyRoundTo 2 ((c.pronunciation + c.structure_ + c.vocabulary + c.fluency +
    c.comprehension + c.interaction) / 6)

/-- Embedding of `ProgressService._calculate_predicted_icao_level` (the live
code path): returns `(predicted_level, progress_to_next_level)`. -/
def calculate_predicted_icao_level_service
    (vocab_mastery_percent listening_average_score : ℚ)
    (icao_criteria : ICAOCriteriaProgress) : ℚ × ℚ :=
  let speaking_level := icao_criteria.average
  let listening_normalized := 1 + (listening_average_score / 100) * 5
  let vocab_normalized := 1 + (vocab_mastery_percent / 100) * 5
  let predicted := speaking_level * (3/5) + listening_normalized * (1/4) +
    vocab_normalized * (3/20)
  let predicted := max 1 (min 6 predicted)
  let current_floor := pyInt predicted
  let progress := (predicted - (current_floor : ℚ)) * 100
  (pyRoundTo 2 predicted, pyRoundTo 1 progress)

/-- The `ICAOScores` dataclass of `icao_scoring.py`. -/
structure ICAOScores where
  pronunciation : ℚ
  structure_ : ℚ
  vocabulary : ℚ
  fluency : ℚ
  comprehension : ℚ
  interaction : ℚ
deriving DecidableEq, Repr

/-- `ICAOScores.average`. -/
def ICAOScores.average (s : ICAOScores) : ℚ :=
  (s.pronunciation + s.structure_ + s.vocabulary + s.fluency +
    s.comprehension + s.interaction) / 6

/-- `ICAOScores.minimum` — "ICAO level is based on lowest criteria". -/
def ICAOScores.minimum (s : ICAOScores) : ℚ :=
  min s.pronunciation (min s.structure_ (min s.vocabulary
    (min s.fluency (min s.comprehension s.interaction))))

/-- Embedding of `calculate_predicted_icao_level` from `icao_scoring.py`
with its default weights (vocabulary 0.25, listening 0.25, speaking 0.50). -/
def calculate_predicted_icao_level
    (vocabulary_mastery listening_average_score : ℚ)
    (speaking_scores : Option ICAOScores) : ℚ :=
  let vocab_level := 1 + (vocabulary_mastery / 100) * 5
  let listening_level := 1 + (listening_average_score / 100) * 5
  let speaking_level :=
    match speaking_scores with
    | some s => s.minimum
    | none => (vocab_level + listening_level) / 2
  let predicted := vocab_level * (1/4) + listening_level * (1/4) +
    speaking_level * (1/2)
  pyRoundTo 1 (max 1 (min 6 predicted))

/-- Criteria with one weak criterion: pronunciation 1, the rest 6. -/
def weak_pronunciation_crit : ICAOCriteriaProgress :=
  { pronunciation := 1
    structure_ := 6
    vocabulary := 6
    fluency := 6
    comprehension := 6
    interaction := 6 }

/-- The same scores as an `icao_scoring` record. -/
def weak_pronunciation_scores : ICAOScores :=
  { pronunciation := 1
    structure_ := 6
    vocabulary := 6
    fluency := 6
    comprehension := 6
    interaction := 6 }

/-- C4: at vocabulary mastery 100%, listening average 100% and speaking
criteria (1, 6, 6, 6, 6, 6), the live code predicts level 5.5 — it multiplies
the rounded *average* of the criteria (5.17) by the speaking weight — while
the claim's minimum-gated combination with the same weights (speaking 60%,
listening 25%, vocabulary 15%) yields 3; the repository's own
`icao_scoring.calculate_predicted_icao_level`, which implements the claimed
rule with its default 50/25/25 weights, yields 3.5 on the same input. -/
theorem icao_level_uses_average_not_minimum :
    (calculate_predicted_icao_level_service 100 100 weak_pronunciation_crit).1 = 11/2 ∧
    pyRoundTo 2 (max 1 (min 6 (weak_pronunciation_scores.minimum * (3/5)
      + (1 + ((100 : ℚ)/100) * 5) * (1/4) + (1 + ((100 : ℚ)/100) * 5) * (3/20)))) = 3 ∧
    (11/2 : ℚ) ≠ 3 ∧
    calculate_predicted_icao_level 100 100 (some weak_pronunciation_scores) = 7/2 := by
  refine ⟨?_, ?_, by norm_num, ?_⟩
  · unfold calculate_predicted_icao_level_service ICAOCriteriaProgress.average
      weak_pronunciation_crit pyRoundTo pyRound pyInt
    norm_num
  · unfold ICAOScores.minimum weak_pronunciation_scores pyRoundTo pyRound
    norm_num
  · unfold calculate_predicted_icao_level ICAOScores.minimum
      weak_pronunciation_scores pyRoundTo pyRound
    norm_num

end Avilingo
